import Mathlib

/-!
Verification of the CLI layer of the bartib time tracker (`src/main.rs`)
against its natural-language specification.

Shallow embedding conventions:

* `chrono::NaiveDate` is modelled as an `Int` counting days, with the epoch
  chosen on a Monday, so that `num_days_from_monday(d) = d % 7`
  (`Int.emod` returns a value in `[0, 7)` for every `Int`, exactly like
  chrono's `num_days_from_monday`, which is in `0..=6` for every date).
* `chrono::NaiveTime` is modelled as an opaque `Nat` (the claims never
  inspect a time of day, they only track how it flows through the CLI).
* `chrono::Duration` is modelled as an `Int` counting milliseconds;
  chrono's valid range is `±i64::MAX` milliseconds, hence whole seconds
  in `[-9223372036854775, 9223372036854775]`.
* `Local::now()` is modelled by an `Env` value carrying the invocation's
  current local date, passed explicitly where the Rust code calls
  `Local::now()`.
* A Rust function that can panic is modelled with an `Option` result,
  `none` standing for the panic.
* The dispatch `run_subcommand` does not execute the `bartib` library
  controllers; it is modelled as returning the `CoreCall` describing
  exactly which controller function is invoked and with which arguments,
  which is all the claims about the CLI layer quantify over.
-/

/-- A `chrono::NaiveDateTime`: a day number paired with a time of day,
as produced by `NaiveDate::and_time`. -/
structure NaiveDateTime where
  date : Int
  time : Nat
deriving DecidableEq, Repr

/-- `NaiveDate::and_time` from chrono: pairs a date with a time of day. -/
def and_time (d : Int) (t : Nat) : NaiveDateTime := ⟨d, t⟩

/-- The invocation environment: the current local date
(`Local::now().date_naive()`, also `Local::now().naive_local().date()`). -/
structure Env where
  today : Int
deriving DecidableEq, Repr

/-- `bartib::data::getter::ActivityFilter` as its fields appear at the
struct literal in the `Status` arm of `run_subcommand` (main.rs:313-319):
`number_of_activities`, `from_date`, `to_date`, `date`, `project`. -/
structure ActivityFilter where
  number_of_activities : Option Nat
  from_date : Option Int
  to_date : Option Int
  date : Option Int
  project : Option String
deriving DecidableEq, Repr

/-- `bartib::data::processor::ActivityProcessor`: the only concrete
processor the CLI ever builds is `processor::RoundProcessor { round }`
(main.rs:331). -/
inductive ActivityProcessor where
  | RoundProcessor (round : Int)
deriving DecidableEq, Repr

/-- `create_processors` (main.rs:327-335): starts from an empty vector and
pushes a single `RoundProcessor` iff a rounding duration was supplied. -/
def create_processors (round : Option Int) : List ActivityProcessor :=
  match round with
  | some r => [ActivityProcessor.RoundProcessor r]
  | none => []

/-- `apply_date_presets` (main.rs:342-378). `now` is
`Local::now().naive_local().date()`; `now % 7` is
`now.weekday().num_days_from_monday()` under the Monday-epoch convention. -/
def apply_date_presets (filter : ActivityFilter)
    (today yesterday current_week last_week : Bool) (now : Int) :
    ActivityFilter :=
  let f1 := if today then { filter with date := some now } else filter
  let f2 := if yesterday then { f1 with date := some (now - 1) } else f1
  let f3 :=
    if current_week then
      { f2 with
        from_date := some (now - now % 7),
        to_date := some (now - now % 7 + 6) }
    else f2
  if last_week then
    { f3 with
      from_date := some (now - now % 7 - 7),
      to_date := some (now - now % 7 - 7 + 6) }
  else f3

/-- The arguments of the `List` subcommand (main.rs:81-115). The Rust
fields `from` and `to` are renamed `from_date` and `to_date` because
`from` is a Lean keyword. Dates arrive already parsed by clap
(`value_parser = parse_date`), times by `parse_time`, durations by
`parse_duration`. -/
structure ListArgs where
  from_date : Option Int
  to_date : Option Int
  date : Option Int
  today : Bool
  yesterday : Bool
  current_week : Bool
  last_week : Bool
  round : Option Int
  project : Option String
  no_grouping : Bool
  number : Option Nat
deriving DecidableEq, Repr

/-- The arguments of the `Report` subcommand (main.rs:117-145): the same
as `ListArgs` except that there is no `no_grouping` flag and no
`number` (recency count) option. -/
structure ReportArgs where
  from_date : Option Int
  to_date : Option Int
  date : Option Int
  today : Bool
  yesterday : Bool
  current_week : Bool
  last_week : Bool
  round : Option Int
  project : Option String
deriving DecidableEq, Repr

/-- The `Commands` enum (main.rs:29-183). -/
inductive Commands where
  | Start (project description : String) (time : Option Nat)
  | Continue (description project : Option String) (number : Nat) (time : Option Nat)
  | Change (description project : Option String) (time : Option Nat)
  | Stop (time : Option Nat)
  | Cancel
  | Current
  | List (args : ListArgs)
  | Report (args : ReportArgs)
  | Last (number : Nat)
  | Projects (current no_quotes : Bool)
  | Edit (editor : Option String)
  | Check
  | Sanity
  | Search (search_term : String)
  | Status (project : Option String)
deriving DecidableEq, Repr

/-- The `Cli` struct (main.rs:21-27). -/
structure Cli where
  command : Commands
  file : String
deriving DecidableEq, Repr

/-- The positional argument tuple the CLI hands to `ActivityFilter::new`,
in the order of the call sites at main.rs:258-268 and main.rs:284-294. -/
structure FilterCtorArgs where
  number : Option Nat
  from_date : Option Int
  to_date : Option Int
  date : Option Int
  project : Option String
  today : Bool
  yesterday : Bool
  current_week : Bool
  last_week : Bool
deriving DecidableEq, Repr

/-- The argument tuple passed to `ActivityFilter::new` by the `List` arm
of `run_subcommand` (main.rs:258-268): the user's values, presets
included, forwarded verbatim. -/
def listFilterCtorArgs (a : ListArgs) : FilterCtorArgs :=
  { number := a.number
    from_date := a.from_date
    to_date := a.to_date
    date := a.date
    project := a.project
    today := a.today
    yesterday := a.yesterday
    current_week := a.current_week
    last_week := a.last_week }

/-- The argument tuple passed to `ActivityFilter::new` by the `Report` arm
of `run_subcommand` (main.rs:284-294): `None` for the count, everything
else forwarded verbatim. -/
def reportFilterCtorArgs (a : ReportArgs) : FilterCtorArgs :=
  { number := none
    from_date := a.from_date
    to_date := a.to_date
    date := a.date
    project := a.project
    today := a.today
    yesterday := a.yesterday
    current_week := a.current_week
    last_week := a.last_week }

/-- Modelled from the spec: `ActivityFilter::new` lives in
`bartib::data::getter`, which is not among the given sources; only this
call shape is. Spec §9: "Date-preset flags (today/yesterday/current-week/
last-week) are mutually exclusive convenience sugar resolved ... into
concrete `from`/`to`/`date` values before reaching the core", and §4.3
lists the remaining criteria (range, date, project, count) carried as
given. We therefore model the constructor as storing the explicit
criteria and resolving the preset booleans exactly as the preset windows
are defined (the computation `apply_date_presets` spells out). -/
def ActivityFilter.new (args : FilterCtorArgs) (now : Int) : ActivityFilter :=
  apply_date_presets
    { number_of_activities := args.number
      from_date := args.from_date
      to_date := args.to_date
      date := args.date
      project := args.project }
    args.today args.yesterday args.current_week args.last_week now

/-- The call into the `bartib` library that `run_subcommand` performs:
one constructor per controller function, holding the exact arguments of
the call (main.rs:196-325). -/
inductive CoreCall where
  | start (file project description : String) (time : Option NaiveDateTime)
  | change (file : String) (project description : Option String)
      (time : Option NaiveDateTime)
  | continue_last_activity (file : String) (project description : Option String)
      (time : Option NaiveDateTime) (number : Nat)
  | stop (file : String) (time : Option NaiveDateTime)
  | cancel (file : String)
  | list_running (file : String)
  | list (file : String) (filter : ActivityFilter) (do_group_activities : Bool)
      (processors : List ActivityProcessor)
  | show_report (file : String) (filter : ActivityFilter)
      (processors : List ActivityProcessor)
  | list_projects (file : String) (current no_quotes : Bool)
  | list_last_activities (file : String) (number : Nat)
  | start_editor (file : String) (editor : Option String)
  | check (file : String)
  | sanity_check (file : String)
  | search (file : String) (term : Option String)
  | show_status (file : String) (filter : ActivityFilter)
      (processors : List ActivityProcessor)
deriving DecidableEq, Repr

/-- `run_subcommand` (main.rs:196-325), returning the controller call it
performs. Every `time.map(|t| Local::now().date_naive().and_time(t))` is
`time.map (and_time env.today)`. -/
def run_subcommand (cli : Cli) (env : Env) : CoreCall :=
  let file_name := cli.file
  match cli.command with
  | .Start project description time =>
      CoreCall.start file_name project description
        (time.map fun t => and_time env.today t)
  | .Change description project time =>
      CoreCall.change file_name project description
        (time.map fun t => and_time env.today t)
  | .Continue description project number time =>
      CoreCall.continue_last_activity file_name project description
        (time.map fun t => and_time env.today t) number
  | .Stop time =>
      CoreCall.stop file_name (time.map fun t => and_time env.today t)
  | .Cancel => CoreCall.cancel file_name
  | .Current => CoreCall.list_running file_name
  | .List a =>
      let filter := ActivityFilter.new (listFilterCtorArgs a) env.today
      let processors := create_processors a.round
      let do_group_activities := !a.no_grouping && filter.date.isNone
      CoreCall.list file_name filter do_group_activities processors
  | .Report a =>
      let filter := ActivityFilter.new (reportFilterCtorArgs a) env.today
      let processors := create_processors a.round
      CoreCall.show_report file_name filter processors
  | .Projects current no_quotes =>
      CoreCall.list_projects file_name current no_quotes
  | .Last number => CoreCall.list_last_activities file_name number
  | .Edit editor => CoreCall.start_editor file_name editor
  | .Check => CoreCall.check file_name
  | .Sanity => CoreCall.sanity_check file_name
  | .Search search_term => CoreCall.search file_name (some search_term)
  | .Status project =>
      let filter : ActivityFilter :=
        { number_of_activities := none
          from_date := none
          to_date := none
          date := none
          project := project }
      let processors := create_processors none
      CoreCall.show_status file_name filter processors

/-- The clap argument validation declared on the `List` subcommand
(main.rs:89-102): each `conflicts_with_all = [...]` attribute, translated
conjunct by conjunct; an argument is present when its flag is set or its
option holds a value, and clap rejects the invocation when an argument
and one of its declared conflicts are both present. -/
def listArgsValid (a : ListArgs) : Bool :=
  !(a.date.isSome && (a.from_date.isSome || a.to_date.isSome || a.today ||
      a.yesterday || a.current_week || a.last_week)) &&
  !(a.today && (a.from_date.isSome || a.to_date.isSome || a.date.isSome ||
      a.yesterday || a.current_week || a.last_week)) &&
  !(a.yesterday && (a.from_date.isSome || a.to_date.isSome || a.date.isSome ||
      a.today || a.current_week || a.last_week)) &&
  !(a.current_week && (a.from_date.isSome || a.to_date.isSome || a.date.isSome ||
      a.today || a.yesterday || a.last_week)) &&
  !(a.last_week && (a.from_date.isSome || a.to_date.isSome || a.date.isSome ||
      a.today || a.yesterday || a.current_week))

/-- The clap argument validation declared on the `Report` subcommand
(main.rs:125-138): identical conflict sets to `List`. -/
def reportArgsValid (a : ReportArgs) : Bool :=
  !(a.date.isSome && (a.from_date.isSome || a.to_date.isSome || a.today ||
      a.yesterday || a.current_week || a.last_week)) &&
  !(a.today && (a.from_date.isSome || a.to_date.isSome || a.date.isSome ||
      a.yesterday || a.current_week || a.last_week)) &&
  !(a.yesterday && (a.from_date.isSome || a.to_date.isSome || a.date.isSome ||
      a.today || a.current_week || a.last_week)) &&
  !(a.current_week && (a.from_date.isSome || a.to_date.isSome || a.date.isSome ||
      a.today || a.yesterday || a.last_week)) &&
  !(a.last_week && (a.from_date.isSome || a.to_date.isSome || a.date.isSome ||
      a.today || a.yesterday || a.current_week))

/-- The argument validation clap performs during `Cli::parse()` for the
conflict attributes declared in main.rs; subcommands without declared
conflicts always pass. -/
def cliValid (cli : Cli) : Bool :=
  match cli.command with
  | .List a => listArgsValid a
  | .Report a => reportArgsValid a
  | _ => true

/-- `main` (main.rs:185-194): `Cli::parse()` aborts with a clap error
before `run_subcommand` (and hence before any filter is built or any
controller is called) when the declared argument conflicts are violated;
otherwise the parsed `Cli` is dispatched. (The Rust function is `main`;
Lean reserves that name for its entry point, hence `bartib_main`.) -/
def clapConflictError : String :=
  "error: the argument cannot be used with one or more of the other specified arguments"

def bartib_main (cli : Cli) (env : Env) : Except String CoreCall :=
  if cliValid cli then Except.ok (run_subcommand cli env)
  else Except.error clapConflictError

/-- Modelled from the spec: the controller implementations in
`bartib::controller` are not among the given sources. Spec §4.2: "All
manipulation operations conclude with `Log Store.save`"; spec §5:
"read-only operations (list/report/status/search/check) never write
back"; the `edit` command opens the log itself in an editor. Hence the
manipulation calls and the editor may rewrite the log resource and the
query/listing calls never do. -/
def CoreCall.writesLog : CoreCall → Bool
  | .start .. | .change .. | .continue_last_activity .. | .stop ..
  | .cancel .. | .start_editor .. => true
  | .list_running .. | .list .. | .show_report .. | .list_projects ..
  | .list_last_activities .. | .check .. | .sanity_check .. | .search ..
  | .show_status .. => false

/-- The read-only subcommands named by claim C7: current, list, report,
last, projects, check, sanity, search, status. -/
def Commands.isReadOnly : Commands → Bool
  | .Current | .List _ | .Report _ | .Last _ | .Projects _ _ | .Check
  | .Sanity | .Search _ | .Status _ => true
  | .Start _ _ _ | .Continue _ _ _ _ | .Change _ _ _ | .Stop _
  | .Cancel | .Edit _ => false

/-- A decimal digit's value, as accepted by Rust's `i64::from_str`. -/
def digitVal (c : Char) : Option Nat :=
  if c.isDigit then some (c.toNat - '0'.toNat) else none

/-- Accumulating digit loop of Rust's integer `from_str`. -/
def parseDigitsAux : List Char → Nat → Option Nat
  | [], acc => some acc
  | c :: cs, acc =>
    match digitVal c with
    | some d => parseDigitsAux cs (acc * 10 + d)
    | none => none

/-- A non-empty all-digit sequence's value; `none` on an empty sequence or
any non-digit, as in Rust's integer `from_str`. -/
def parseDigits : List Char → Option Nat
  | [] => none
  | cs => parseDigitsAux cs 0

/-- `i64::MAX`. -/
def i64Max : Int := 9223372036854775807

/-- `i64::MIN`. -/
def i64Min : Int := -9223372036854775808

/-- `str::parse::<i64>()`: an optional single sign, then one or more
decimal digits, value within the `i64` range; everything else (the empty
string, a lone sign, stray characters, overflow) is `none`, which Rust
reports as `Err` — never a panic. -/
def parseI64 (cs : List Char) : Option Int :=
  match cs with
  | '+' :: rest =>
    (parseDigits rest).bind fun n =>
      if (n : Int) ≤ i64Max then some (n : Int) else none
  | '-' :: rest =>
    (parseDigits rest).bind fun n =>
      if i64Min ≤ -(n : Int) then some (-(n : Int)) else none
  | _ =>
    (parseDigits cs).bind fun n =>
      if (n : Int) ≤ i64Max then some (n : Int) else none

/-- `chrono::Duration::try_minutes`: the duration in milliseconds when
`minutes * 60` seconds stays inside chrono's range of whole seconds,
`|secs| ≤ 9223372036854775` (that is `i64::MAX` milliseconds), else
`none`. `9223372036854775 / 60 = 153722867280912` rounded toward zero. -/
def try_minutes (n : Int) : Option Int :=
  if -153722867280912 ≤ n ∧ n ≤ 153722867280912 then some (n * 60000)
  else none

/-- `chrono::Duration::try_hours`: as `try_minutes` with
`9223372036854775 / 3600 = 2562047788015` rounded toward zero. -/
def try_hours (n : Int) : Option Int :=
  if -2562047788015 ≤ n ∧ n ≤ 2562047788015 then some (n * 3600000)
  else none

/-- `parse_duration` (main.rs:388-400). The input is the string's
characters. `none` models a panic:

* on the empty string, `duration_string.len() - 1` underflows `usize`
  (or, after wrapping, `split_at` is out of bounds) — a panic either way;
* when the final character occupies more than one byte,
  `split_at(len - 1)` falls inside a UTF-8 code point and panics
  (splitting one byte before the end is a char boundary exactly when the
  last character is one byte wide);
* when the parsed number is accepted by `str::parse::<i64>` but
  `Duration::minutes` / `Duration::hours` is out of chrono's range, the
  `expect` inside those constructors panics.

Otherwise the result mirrors the Rust control flow: the numeric prefix is
parsed first (`?` returns its `Err`), then the one-byte unit is matched. -/
def parse_duration (s : List Char) : Option (Except String Int) :=
  if s.isEmpty then
    none
  else if (s.getLastD ' ').utf8Size ≠ 1 then
    none
  else
    match parseI64 s.dropLast with
    | none => some (Except.error "invalid digit found in string")
    | some number =>
      if s.getLastD ' ' = 'm' then
        match try_minutes number with
        | some d => some (Except.ok d)
        | none => none
      else if s.getLastD ' ' = 'h' then
        match try_hours number with
        | some d => some (Except.ok d)
        | none => none
      else
        some (Except.error "invalid duration unit, expected m or h")

/-- The side condition under which the chrono duration constructors do not
panic on the parsed number (vacuous when the numeric prefix is rejected
or the unit is not `m`/`h`). -/
def durCtorInRange (s : List Char) : Bool :=
  match parseI64 s.dropLast with
  | none => true
  | some n =>
    if s.getLastD ' ' = 'm' then (try_minutes n).isSome
    else if s.getLastD ' ' = 'h' then (try_hours n).isSome
    else true

/-- Claim C1 in the claim's own words, as a predicate on what the `List`
dispatch arm hands to `ActivityFilter::new`: the preset booleans are
resolved in the CLI dispatch path into concrete `from`/`to`/`date`
values, so the constructor receives no raw preset boolean, and a set
preset flag arrives as its concrete date or date-range instead. -/
def presetsResolvedInDispatch (a : ListArgs) (now : Int) : Prop :=
  ((listFilterCtorArgs a).today = false ∧
   (listFilterCtorArgs a).yesterday = false ∧
   (listFilterCtorArgs a).current_week = false ∧
   (listFilterCtorArgs a).last_week = false) ∧
  (a.today = true → (listFilterCtorArgs a).date = some now) ∧
  (a.yesterday = true → (listFilterCtorArgs a).date = some (now - 1)) ∧
  (a.current_week = true →
    ((listFilterCtorArgs a).from_date).isSome = true ∧
    ((listFilterCtorArgs a).to_date).isSome = true) ∧
  (a.last_week = true →
    ((listFilterCtorArgs a).from_date).isSome = true ∧
    ((listFilterCtorArgs a).to_date).isSome = true)

/-- The invocations claim C5 says the argument validation must reject:
on `list` or `report`, the single `date` option combined with a range
bound or any preset flag, or two preset flags at once. -/
def claimC5RejectedCombo (cli : Cli) : Bool :=
  match cli.command with
  | .List a =>
    (a.date.isSome && (a.from_date.isSome || a.to_date.isSome || a.today ||
        a.yesterday || a.current_week || a.last_week)) ||
    ((a.today && a.yesterday) || ((a.today && a.current_week) ||
     ((a.today && a.last_week) || ((a.yesterday && a.current_week) ||
      ((a.yesterday && a.last_week) || (a.current_week && a.last_week))))))
  | .Report a =>
    (a.date.isSome && (a.from_date.isSome || a.to_date.isSome || a.today ||
        a.yesterday || a.current_week || a.last_week)) ||
    ((a.today && a.yesterday) || ((a.today && a.current_week) ||
     ((a.today && a.last_week) || ((a.yesterday && a.current_week) ||
      ((a.yesterday && a.last_week) || (a.current_week && a.last_week))))))
  | _ => false

/-- C1 (counterexample): the claim fails on the code. For the concrete
`list --today` invocation (all other options empty) and current date 0,
the dispatch arm does not resolve the preset into a concrete date — it
hands the constructor `today = true` and `date = none` — so the preset
resolution asserted to happen in the CLI dispatch path does not. -/
theorem C1_counterexample :
    ¬ presetsResolvedInDispatch
      { from_date := none, to_date := none, date := none, today := true,
        yesterday := false, current_week := false, last_week := false,
        round := none, project := none, no_grouping := false, number := none }
      0 := by
  intro h
  exact absurd h.1.1 (by simp [listFilterCtorArgs])

/-- C1 (amended): for every `list` and `report` invocation the dispatch
path forwards the preset booleans and the explicit date criteria
verbatim into the `ActivityFilter` constructor — `apply_date_presets` is
not part of the dispatch path — so any resolution of the presets into
concrete `from`/`to`/`date` values happens inside the constructor, not
in the CLI dispatch code. -/
theorem C1_presets_forwarded_to_ctor (a : ListArgs) (r : ReportArgs)
    (env : Env) (f : String) :
    ((listFilterCtorArgs a).today = a.today ∧
     (listFilterCtorArgs a).yesterday = a.yesterday ∧
     (listFilterCtorArgs a).current_week = a.current_week ∧
     (listFilterCtorArgs a).last_week = a.last_week ∧
     (listFilterCtorArgs a).date = a.date ∧
     (listFilterCtorArgs a).from_date = a.from_date ∧
     (listFilterCtorArgs a).to_date = a.to_date) ∧
    ((reportFilterCtorArgs r).today = r.today ∧
     (reportFilterCtorArgs r).yesterday = r.yesterday ∧
     (reportFilterCtorArgs r).current_week = r.current_week ∧
     (reportFilterCtorArgs r).last_week = r.last_week ∧
     (reportFilterCtorArgs r).date = r.date ∧
     (reportFilterCtorArgs r).from_date = r.from_date ∧
     (reportFilterCtorArgs r).to_date = r.to_date) ∧
    run_subcommand ⟨Commands.List a, f⟩ env =
      CoreCall.list f (ActivityFilter.new (listFilterCtorArgs a) env.today)
        (!a.no_grouping &&
          (ActivityFilter.new (listFilterCtorArgs a) env.today).date.isNone)
        (create_processors a.round) ∧
    run_subcommand ⟨Commands.Report r, f⟩ env =
      CoreCall.show_report f
        (ActivityFilter.new (reportFilterCtorArgs r) env.today)
        (create_processors r.round) :=
  ⟨⟨rfl, rfl, rfl, rfl, rfl, rfl, rfl⟩,
   ⟨rfl, rfl, rfl, rfl, rfl, rfl, rfl⟩, rfl, rfl⟩

/-- C3: every write subcommand (start, change, continue, stop) passes the
manipulation operation `Some(today ∘ and_time t)` when a time-of-day `t`
was supplied — the invocation's current local date combined with `t` —
and `None` unchanged when no time was supplied. -/
theorem C3_time_combined_with_today (f : String) (env : Env) :
    (∀ (p d : String) (t : Option Nat),
      run_subcommand ⟨Commands.Start p d t, f⟩ env =
        CoreCall.start f p d (t.map fun tt => and_time env.today tt)) ∧
    (∀ (d p : Option String) (t : Option Nat),
      run_subcommand ⟨Commands.Change d p t, f⟩ env =
        CoreCall.change f p d (t.map fun tt => and_time env.today tt)) ∧
    (∀ (d p : Option String) (n : Nat) (t : Option Nat),
      run_subcommand ⟨Commands.Continue d p n t, f⟩ env =
        CoreCall.continue_last_activity f p d
          (t.map fun tt => and_time env.today tt) n) ∧
    (∀ t : Option Nat,
      run_subcommand ⟨Commands.Stop t, f⟩ env =
        CoreCall.stop f (t.map fun tt => and_time env.today tt)) ∧
    (∀ p d : String,
      run_subcommand ⟨Commands.Start p d none, f⟩ env =
        CoreCall.start f p d none) ∧
    (run_subcommand ⟨Commands.Stop none, f⟩ env = CoreCall.stop f none) :=
  ⟨fun _ _ _ => rfl, fun _ _ _ => rfl, fun _ _ _ _ => rfl, fun _ => rfl,
   fun _ _ => rfl, rfl⟩

/-- C4: for any starting filter and current date, `apply_date_presets`
with `today` set puts the current date into `filter.date`; with
`yesterday` set, the current date minus one day; with `current_week`
set, `from_date` becomes the Monday of the week containing the current
date (a day `monday` with `monday % 7 = 0`, i.e. a Monday under the
Monday-epoch convention, and `monday ≤ now < monday + 7`) and `to_date`
that Monday plus six days; with `last_week` set, both bounds lie exactly
seven days earlier. -/
theorem C4_apply_date_presets_windows (flt : ActivityFilter) (now : Int) :
    apply_date_presets flt true false false false now =
      { flt with date := some now } ∧
    apply_date_presets flt false true false false now =
      { flt with date := some (now - 1) } ∧
    (∃ monday : Int, monday % 7 = 0 ∧ monday ≤ now ∧ now < monday + 7 ∧
      apply_date_presets flt false false true false now =
        { flt with from_date := some monday, to_date := some (monday + 6) } ∧
      apply_date_presets flt false false false true now =
        { flt with from_date := some (monday - 7),
                   to_date := some ((monday + 6) - 7) }) := by
  refine ⟨rfl, rfl, now - now % 7, by omega, by omega, by omega, rfl, ?_⟩
  show ({ flt with
      from_date := some (now - now % 7 - 7),
      to_date := some (now - now % 7 - 7 + 6) } : ActivityFilter) = _
  have h : now - now % 7 - 7 + 6 = now - now % 7 + 6 - 7 := by omega
  rw [h]

/-- C6: the processor pipeline the CLI builds is exactly one
`RoundProcessor` holding the supplied granularity when a rounding
duration is given, the empty list when none is given, and never anything
else (in particular never more than one element). -/
theorem C6_create_processors_pipeline (g : Int) (r : Option Int) :
    create_processors (some g) = [ActivityProcessor.RoundProcessor g] ∧
    create_processors none = [] ∧
    (create_processors r).length ≤ 1 ∧
    ∀ p ∈ create_processors r, ∃ g2 : Int,
      p = ActivityProcessor.RoundProcessor g2 ∧ r = some g2 := by
  refine ⟨rfl, rfl, ?_, ?_⟩ <;> cases r <;> simp [create_processors]

theorem conflict_reject : ∀ d fb tb td y cw lw : Bool,
    ((d && (fb || tb || td || y || cw || lw)) ||
      ((td && y) || ((td && cw) || ((td && lw) || ((y && cw) ||
        ((y && lw) || (cw && lw))))))) = true →
    (!(d && (fb || tb || td || y || cw || lw)) &&
     !(td && (fb || tb || d || y || cw || lw)) &&
     !(y && (fb || tb || d || td || cw || lw)) &&
     !(cw && (fb || tb || d || td || y || lw)) &&
     !(lw && (fb || tb || d || td || y || cw))) = false := by
  decide

/-- C5: for `list` and `report`, any invocation combining the single
`date` option with a `from`/`to` bound or a preset flag, and any
invocation with two preset flags set, is rejected by the declared clap
argument conflicts: `Cli::parse()` aborts with an error, so no filter is
built and no core operation runs. -/
theorem C5_conflicting_args_rejected (cli : Cli) (env : Env)
    (h : claimC5RejectedCombo cli = true) :
    ∃ e, bartib_main cli env = Except.error e := by
  obtain ⟨cmd, file⟩ := cli
  cases cmd with
  | List a =>
    have hv : cliValid ⟨Commands.List a, file⟩ = false :=
      conflict_reject a.date.isSome a.from_date.isSome a.to_date.isSome
        a.today a.yesterday a.current_week a.last_week h
    have hne := ne_true_of_eq_false hv
    refine ⟨clapConflictError, ?_⟩
    unfold bartib_main
    rw [if_neg hne]
  | Report a =>
    have hv : cliValid ⟨Commands.Report a, file⟩ = false :=
      conflict_reject a.date.isSome a.from_date.isSome a.to_date.isSome
        a.today a.yesterday a.current_week a.last_week h
    have hne := ne_true_of_eq_false hv
    refine ⟨clapConflictError, ?_⟩
    unfold bartib_main
    rw [if_neg hne]
  | Start p d t => exact Bool.noConfusion h
  | Continue d p n t => exact Bool.noConfusion h
  | Change d p t => exact Bool.noConfusion h
  | Stop t => exact Bool.noConfusion h
  | Cancel => exact Bool.noConfusion h
  | Current => exact Bool.noConfusion h
  | Last n => exact Bool.noConfusion h
  | Projects c q => exact Bool.noConfusion h
  | Edit e => exact Bool.noConfusion h
  | Check => exact Bool.noConfusion h
  | Sanity => exact Bool.noConfusion h
  | Search s => exact Bool.noConfusion h
  | Status p => exact Bool.noConfusion h

/-- A concrete `list --date 3 --today` invocation, used to witness C5. -/
def c5BadCli : Cli :=
  { command := Commands.List
      { from_date := none, to_date := none, date := some 3, today := true,
        yesterday := false, current_week := false, last_week := false,
        round := none, project := none, no_grouping := false, number := none }
    file := "bartib.log" }

/-- C5 (witness): `list --date 3 --today` is a rejected combination, and
the modelled `main` indeed fails on it before any core call. -/
theorem C5_conflicting_args_rejected_witness :
    claimC5RejectedCombo c5BadCli = true ∧
    ∃ e, bartib_main c5BadCli ⟨0⟩ = Except.error e :=
  ⟨by decide, C5_conflicting_args_rejected c5BadCli ⟨0⟩ (by decide)⟩

/-- C7: every read-only subcommand (current, list, report, last,
projects, check, sanity, search, status) dispatches to a controller call
that leaves the log resource unchanged; only the write subcommands reach
a controller that may rewrite it. -/
theorem C7_read_only_leaves_log (cli : Cli) (env : Env)
    (h : cli.command.isReadOnly = true) :
    (run_subcommand cli env).writesLog = false := by
  obtain ⟨cmd, file⟩ := cli
  cases cmd <;> first | rfl | exact Bool.noConfusion h

/-- C7 (witness): the `check` subcommand is read-only and its dispatched
controller call does not write the log. -/
theorem C7_read_only_leaves_log_witness :
    Commands.Check.isReadOnly = true ∧
    (run_subcommand ⟨Commands.Check, "bartib.log"⟩ ⟨0⟩).writesLog = false :=
  ⟨rfl, C7_read_only_leaves_log ⟨Commands.Check, "bartib.log"⟩ ⟨0⟩ rfl⟩

/-- C8: the `report` dispatch always builds its filter with
`number_of_activities = None` (the subcommand has no recency-count
option to pass), so the aggregation input is never count-truncated. -/
theorem C8_report_filter_number_none (r : ReportArgs) (env : Env)
    (f : String) :
    ∃ filter procs,
      run_subcommand ⟨Commands.Report r, f⟩ env =
        CoreCall.show_report f filter procs ∧
      filter.number_of_activities = none := by
  refine ⟨_, _, rfl, ?_⟩
  show (ActivityFilter.new (reportFilterCtorArgs r) env.today).number_of_activities = none
  simp only [ActivityFilter.new, apply_date_presets, reportFilterCtorArgs]
  cases r.today <;> cases r.yesterday <;> cases r.current_week <;>
    cases r.last_week <;> simp

/-- C9: the `list` dispatch groups by date exactly when `--no-grouping`
is absent and the constructed filter carries no single-date criterion;
the filter's date is the resolved yesterday/today preset when one is
set, else the explicit `--date` value — so a single-date listing
(explicit or via preset) is always ungrouped. -/
theorem C9_grouping_iff_no_single_date (a : ListArgs) (env : Env)
    (f : String) :
    ∃ filter procs,
      run_subcommand ⟨Commands.List a, f⟩ env =
        CoreCall.list f filter (!a.no_grouping && filter.date.isNone) procs ∧
      filter.date = (if a.yesterday then some (env.today - 1)
        else if a.today then some env.today else a.date) := by
  refine ⟨_, _, rfl, ?_⟩
  show (ActivityFilter.new (listFilterCtorArgs a) env.today).date = _
  simp only [ActivityFilter.new, apply_date_presets, listFilterCtorArgs]
  cases a.today <;> cases a.yesterday <;> cases a.current_week <;>
    cases a.last_week <;> simp

/-- C10: the `status` dispatch always passes the core a filter whose
`number_of_activities`, `from_date`, `to_date` and `date` are all `None`
— only the optional project is carried — together with the empty
processor list: status windows are never date-narrowed, count-truncated
or rounded by the caller. -/
theorem C10_status_filter_unrestricted (p : Option String) (env : Env)
    (f : String) :
    run_subcommand ⟨Commands.Status p, f⟩ env =
      CoreCall.show_status f
        { number_of_activities := none, from_date := none, to_date := none,
          date := none, project := p } [] := rfl

/-- C2 (counterexample): the claim fails on the code. On the empty
string `parse_duration` does not return an `Err` — `split_at(len - 1)`
panics (modelled by `none`), so the function is not total as claimed. -/
theorem C2_counterexample :
    parse_duration ([] : List Char) = none ∧
    ¬ ∃ r, parse_duration ([] : List Char) = some r := by
  refine ⟨rfl, ?_⟩
  rintro ⟨r, hr⟩
  exact Option.noConfusion hr
/-- C2 (amended): on every input on which `parse_duration` does not
panic — the string is non-empty, its final character is one byte wide,
and the parsed number (if any) stays inside chrono's duration range — it
returns a value, and that value is `Ok` exactly when the prefix parses
as an `i64` decimal integer and the final byte is `m` or `h`; the `Ok`
value is `Duration::minutes(n)` for `m` and `Duration::hours(n)` for
`h`, and every other such input yields an `Err`. -/
theorem C2_parse_duration_amended (s : List Char) (h1 : s.isEmpty = false)
    (h2 : (s.getLastD ' ').utf8Size = 1) (h3 : durCtorInRange s = true) :
    (parse_duration s).isSome = true ∧
    ((∃ d, parse_duration s = some (Except.ok d)) ↔
      ((parseI64 s.dropLast).isSome = true ∧
       (s.getLastD ' ' = 'm' ∨ s.getLastD ' ' = 'h'))) ∧
    (∀ n : Int, parseI64 s.dropLast = some n → s.getLastD ' ' = 'm' →
      parse_duration s = some (Except.ok (n * 60000))) ∧
    (∀ n : Int, parseI64 s.dropLast = some n → s.getLastD ' ' = 'h' →
      parse_duration s = some (Except.ok (n * 3600000))) ∧
    ((parseI64 s.dropLast = none ∨
      (s.getLastD ' ' ≠ 'm' ∧ s.getLastD ' ' ≠ 'h')) →
      ∃ e, parse_duration s = some (Except.error e)) := by
  have hpd : parse_duration s =
      (match parseI64 s.dropLast with
       | none => some (Except.error "invalid digit found in string")
       | some number =>
         if s.getLastD ' ' = 'm' then
           match try_minutes number with
           | some d => some (Except.ok d)
           | none => none
         else if s.getLastD ' ' = 'h' then
           match try_hours number with
           | some d => some (Except.ok d)
           | none => none
         else some (Except.error "invalid duration unit, expected m or h")) := by
    unfold parse_duration
    rw [if_neg (ne_true_of_eq_false h1), if_neg (by rw [h2]; simp)]
  unfold durCtorInRange at h3
  rcases hp : parseI64 s.dropLast with _ | n
  all_goals rw [hp] at hpd h3
  · have hpd2 : parse_duration s =
        some (Except.error "invalid digit found in string") := hpd
    refine ⟨by rw [hpd2]; rfl, ?_, ?_, ?_, fun _ => ⟨_, hpd2⟩⟩
    · constructor
      · rintro ⟨d, hd⟩
        rw [hpd2] at hd
        simp at hd
      · rintro ⟨hsome, -⟩
        simp at hsome
    · intro n2 hn2 _
      exact Option.noConfusion hn2
    · intro n2 hn2 _
      exact Option.noConfusion hn2
  · have h3b : (if s.getLastD ' ' = 'm' then (try_minutes n).isSome
        else if s.getLastD ' ' = 'h' then (try_hours n).isSome
        else true) = true := h3
    have hpd2 : parse_duration s =
        (if s.getLastD ' ' = 'm' then
           match try_minutes n with
           | some d => some (Except.ok d)
           | none => none
         else if s.getLastD ' ' = 'h' then
           match try_hours n with
           | some d => some (Except.ok d)
           | none => none
         else some (Except.error "invalid duration unit, expected m or h")) :=
      hpd
    by_cases hm : s.getLastD ' ' = 'm'
    · rw [if_pos hm] at h3b hpd2
      have htm : try_minutes n = some (n * 60000) := by
        unfold try_minutes at h3b ⊢
        split at h3b
        · rename_i hcond
          rw [if_pos hcond]
        · simp at h3b
      rw [htm] at hpd2
      refine ⟨by rw [hpd2]; rfl, ?_, ?_, ?_, ?_⟩
      · exact ⟨fun _ => ⟨rfl, Or.inl hm⟩, fun _ => ⟨_, hpd2⟩⟩
      · intro n2 hn2 _
        injection hn2 with he
        rw [he] at hpd2
        exact hpd2
      · intro n2 hn2 hh2
        exact absurd (hm.symm.trans hh2) (by decide)
      · rintro (hnone | ⟨hm2, -⟩)
        · exact Option.noConfusion hnone
        · exact absurd hm hm2
    · rw [if_neg hm] at h3b hpd2
      by_cases hh : s.getLastD ' ' = 'h'
      · rw [if_pos hh] at h3b hpd2
        have hth : try_hours n = some (n * 3600000) := by
          unfold try_hours at h3b ⊢
          split at h3b
          · rename_i hcond
            rw [if_pos hcond]
          · simp at h3b
        rw [hth] at hpd2
        refine ⟨by rw [hpd2]; rfl, ?_, ?_, ?_, ?_⟩
        · exact ⟨fun _ => ⟨rfl, Or.inr hh⟩, fun _ => ⟨_, hpd2⟩⟩
        · intro n2 hn2 hm2
          exact absurd (hh.symm.trans hm2) (by decide)
        · intro n2 hn2 _
          injection hn2 with he
          rw [he] at hpd2
          exact hpd2
        · rintro (hnone | ⟨-, hh2⟩)
          · exact Option.noConfusion hnone
          · exact absurd hh hh2
      · rw [if_neg hh] at hpd2
        refine ⟨by rw [hpd2]; rfl, ?_, ?_, ?_, fun _ => ⟨_, hpd2⟩⟩
        · constructor
          · rintro ⟨d, hd⟩
            rw [hpd2] at hd
            simp at hd
          · rintro ⟨-, hmh | hmh⟩
            · exact absurd hmh hm
            · exact absurd hmh hh
        · intro n2 hn2 hm2
          exact absurd hm2 hm
        · intro n2 hn2 hh2
          exact absurd hh2 hh

/-- C2 (witness): on the concrete input `15m` the amended theorem's
hypotheses hold and `parse_duration` returns `Ok (Duration::minutes 15)`,
i.e. 900000 milliseconds. -/
theorem C2_parse_duration_amended_witness :
    (['1', '5', 'm'] : List Char).isEmpty = false ∧
    ((['1', '5', 'm'] : List Char).getLastD ' ').utf8Size = 1 ∧
    durCtorInRange ['1', '5', 'm'] = true ∧
    parse_duration ['1', '5', 'm'] = some (Except.ok 900000) :=
  ⟨rfl, by decide, by decide,
   (C2_parse_duration_amended ['1', '5', 'm'] rfl (by decide)
     (by decide)).2.2.1 15 (by decide) (by decide)⟩
